import Mathlib

/-!
Verification of the WonderNAV chat handler
(src/rust_app/src/add_chat_function.rs, with the earlier variant
src/rust_app/src/AddChatFunction.rs).

The handler is a read-through cache: it looks the request body up in a
DynamoDB table, on a hit returns the stored value, on a miss calls the
OpenAI completion endpoint, writes the (body, answer) pair back, and
returns the answer.

The shallow embedding passes every external effect in as the outcome the
corresponding client call would have produced (an oracle value), and the
handler returns a trace: the prompts it sent to the completion endpoint,
the (input, output) pairs it attempted to put into the table, and its
final result.  A Rust panic (out-of-bounds index) is a distinguished
outcome, not an `Except.error`.
-/

namespace WonderNAV

/-- DynamoDB attribute values.  Only the string constructor `S` is ever
read by this module; `N` stands in for any non-string attribute. -/
inductive AttributeValue
  | S (s : String)
  | N (n : String)
  deriving DecidableEq, Repr

/-- `AttributeValue::as_s`: `Ok` with the string for the `S` variant,
`Err` carrying the value itself otherwise. -/
def AttributeValue.as_s : AttributeValue → Except AttributeValue String
  | .S s => .ok s
  | v => .error v

/-- The `item` field of a DynamoDB `GetItemOutput`: `None` when no record
matched the key, otherwise the record's attribute map (modelled as an
association list). -/
structure GetItemOutput where
  item : Option (List (String × AttributeValue))
  deriving DecidableEq, Repr

/-- A DynamoDB error; `msg` is its `Display` rendering, which is what
`format!("... {}", e)` interpolates. -/
structure DynamoError where
  msg : String
  deriving DecidableEq, Repr

/-- Embedding of `query_dynamodb` (add_chat_function.rs lines 198-218).
The network call is passed in as its outcome `getItemResult`.  An item
whose `output` attribute exists and is a string yields `Ok(Some v)`; a
mis-typed `output` attribute yields the literal sentinel
`"Item attribute does not exist"`; a missing attribute or missing item
yields `Ok(None)`; a failed call propagates the error. -/
def query_dynamodb (getItemResult : Except DynamoError GetItemOutput) :
    Except DynamoError (Option String) :=
  match getItemResult with
  | .error e => .error e
  | .ok resp =>
    match resp.item with
    | some item =>
      match item.lookup "output" with
      | some output_attr =>
        match output_attr.as_s with
        | .ok output => .ok (some output)
        | .error _ => .ok (some "Item attribute does not exist")
      | none => .ok none
    | none => .ok none

/-- Embedding of the earlier variant of `query_dynamodb`
(AddChatFunction.rs lines 87-109): identical except that a mis-typed
`output` attribute yields `Ok(None)` (the sentinel line is commented
out there). -/
def query_dynamodb_v0 (getItemResult : Except DynamoError GetItemOutput) :
    Except DynamoError (Option String) :=
  match getItemResult with
  | .error e => .error e
  | .ok resp =>
    match resp.item with
    | some item =>
      match item.lookup "output" with
      | some output_attr =>
        match output_attr.as_s with
        | .ok output => .ok (some output)
        | .error _ => .ok none
      | none => .ok none
    | none => .ok none

/-- The fixed system instruction string (add_chat_function.rs lines
153-154). -/
def system_instruction : String :=
  "You are an experienced travel agent that will provide an in-depth itinerary based on relevant online articles. You will provide the itinerary based on the location and duration entered by the user. Include at least 3 activities a day. Do not include any other suggestions or comments before or after the itinerary."

/-- The outbound prompt: the system instruction with the user input
appended directly (`push_str`, no separator; lines 153-155). -/
def openai_prompt (input : String) : String :=
  system_instruction ++ input

/-- One completion returned by the OpenAI endpoint (its `text` field is
the only one read). -/
structure Choice where
  text : String
  deriving DecidableEq, Repr

/-- The OpenAI completion response: a list of choices. -/
structure CompletionResponse where
  choices : List Choice
  deriving DecidableEq, Repr

deriving instance DecidableEq for Except

/-- What a call to `generate_response` does: either it returns a Rust
`Result` (`value`), or it panics on the unguarded `choices[0]` index
(`panicked`). -/
inductive GenOutcome
  | value (r : Except String String)
  | panicked
  deriving DecidableEq, Repr

/-- Trace of one `generate_response` call: the prompts actually sent to
the completion endpoint, and the outcome. -/
structure GenTrace where
  serviceCalls : List String
  outcome : GenOutcome
  deriving DecidableEq, Repr

/-- Embedding of `generate_response` (add_chat_function.rs lines
148-172).  `buildResult` is the outcome of
`CreateCompletionRequestArgs::build` and `serviceResult` the outcome of
the completion call.  A build failure returns the error before any call
is made; a service failure returns the error; on success the code
indexes `choices[0]` without a guard, so an empty choice list is a
panic, and otherwise the first choice's text is returned. -/
def generate_response (input : String)
    (buildResult : Except String Unit)
    (serviceResult : Except String CompletionResponse) : GenTrace :=
  match buildResult with
  | .error e => ⟨[], .value (.error e)⟩
  | .ok _ =>
    match serviceResult with
    | .error e => ⟨[openai_prompt input], .value (.error e)⟩
    | .ok openai_response =>
      match openai_response.choices with
      | [] => ⟨[openai_prompt input], .panicked⟩
      | choice0 :: _ => ⟨[openai_prompt input], .value (.ok choice0.text)⟩

/-- Embedding of `transform_result` (add_chat_function.rs lines
117-122): the generated string on success, the fixed fallback string on
any error. -/
def transform_result (result : Except String String) : String :=
  match result with
  | .ok str_ref => str_ref
  | .error _ => "Error generating response."

/-- The serialized Lambda response (add_chat_function.rs lines 37-41). -/
structure Response where
  statusCode : Int
  body : String
  deriving DecidableEq, Repr

/-- How one handler invocation ends: a `Response` (the `Ok` cases), an
error propagated to the Lambda runtime by `?` (the failed `put_item`
path), or a panic inside `generate_response`. -/
inductive HandlerResult
  | ok (r : Response)
  | err (e : String)
  | panicked
  deriving DecidableEq, Repr

/-- Trace of one handler invocation: prompts sent to the completion
endpoint, (input, output) pairs attempted via `put_item`, and the final
result. -/
structure HandlerOutcome where
  serviceCalls : List String
  puts : List (String × String)
  result : HandlerResult
  deriving DecidableEq, Repr

/-- Embedding of `function_handler` (add_chat_function.rs lines 70-102).
`body` is the request body; the three oracle arguments are the outcomes
of the DynamoDB `get_item` call, the OpenAI request build, the OpenAI
completion call, and the DynamoDB `put_item` call.  A hit responds 200
with the stored value; a miss generates, transforms, unconditionally
attempts the write-back, and responds 200 with the transformed text
unless the write failed (then `?` propagates the error); a lookup error
responds 500 with the error interpolated after a fixed prefix. -/
def function_handler (body : String)
    (getItemResult : Except DynamoError GetItemOutput)
    (buildResult : Except String Unit)
    (serviceResult : Except String CompletionResponse)
    (putResult : Except String Unit) : HandlerOutcome :=
  match query_dynamodb getItemResult with
  | .ok (some res) => ⟨[], [], .ok ⟨200, res⟩⟩
  | .ok none =>
    let g := generate_response body buildResult serviceResult
    match g.outcome with
    | .panicked => ⟨g.serviceCalls, [], .panicked⟩
    | .value r =>
      let openai_resp := transform_result r
      match putResult with
      | .error e => ⟨g.serviceCalls, [(body, openai_resp)], .err e⟩
      | .ok _ => ⟨g.serviceCalls, [(body, openai_resp)], .ok ⟨200, openai_resp⟩⟩
  | .error e => ⟨[], [], .ok ⟨500, "Error querying DynamoDB: " ++ e.msg⟩⟩

/-- A store state for composing invocations: the (input, output) pairs
the table holds, most recent write first. -/
abbrev Store := List (String × String)

/-- DynamoDB `get_item` against a store in which reads succeed: a present
key yields the two-attribute item that `put_item` writes (lines 85-91),
an absent key yields no item. -/
def get_item (store : Store) (key : String) : Except DynamoError GetItemOutput :=
  match store.lookup key with
  | some v => .ok ⟨some [("input", .S key), ("output", .S v)]⟩
  | none => .ok ⟨none⟩

/-- DynamoDB `put_item` against the store: the new pair shadows any
older record with the same key (DynamoDB put overwrites). -/
def put_item (store : Store) (k v : String) : Store :=
  (k, v) :: store

/-- Apply a trace of attempted puts to the store in order. -/
def apply_puts (store : Store) (puts : List (String × String)) : Store :=
  puts.foldl (fun s p => put_item s p.1 p.2) store

/-- Claim C1: for every request whose body is absent from the store (the
lookup returns a miss), when generation succeeds and the write-back
succeeds, the handler sends exactly one prompt to the generator, equal to
the fixed system instruction immediately followed by the request body
with no separator, attempts exactly one write with the body as key and
the generated text as value, and responds 200 with the generated text as
body. -/
theorem miss_generates_once_writes_once_responds_200
    (body : String) (g : Except DynamoError GetItemOutput)
    (resp : CompletionResponse) (c : Choice) (rest : List Choice)
    (hmiss : query_dynamodb g = .ok none)
    (hchoices : resp.choices = c :: rest) :
    function_handler body g (.ok ()) (.ok resp) (.ok ()) =
      ⟨[system_instruction ++ body], [(body, c.text)], .ok ⟨200, c.text⟩⟩ := by
  simp [function_handler, hmiss, generate_response, hchoices, transform_result,
    openai_prompt]

/-- Witness for C1 at a concrete miss with one completion. -/
theorem miss_generates_once_writes_once_responds_200_witness :
    function_handler "Paris, 3 days" (.ok ⟨none⟩) (.ok ())
        (.ok ⟨[⟨"DAY 1: Louvre"⟩]⟩) (.ok ()) =
      ⟨[system_instruction ++ "Paris, 3 days"],
        [("Paris, 3 days", "DAY 1: Louvre")], .ok ⟨200, "DAY 1: Louvre"⟩⟩ :=
  miss_generates_once_writes_once_responds_200 "Paris, 3 days" (.ok ⟨none⟩)
    ⟨[⟨"DAY 1: Louvre"⟩]⟩ ⟨"DAY 1: Louvre"⟩ [] rfl rfl

/-- Claim C2: for every key present in the store with a well-typed string
value under the `output` attribute, the handler responds 200 with that
stored value as body, sends no prompt to the generator, and attempts no
write. -/
theorem hit_responds_with_stored_value_no_generation
    (body v : String) (item : List (String × AttributeValue))
    (buildResult : Except String Unit)
    (serviceResult : Except String CompletionResponse)
    (putResult : Except String Unit)
    (hattr : item.lookup "output" = some (.S v)) :
    function_handler body (.ok ⟨some item⟩) buildResult serviceResult putResult =
      ⟨[], [], .ok ⟨200, v⟩⟩ := by
  simp [function_handler, query_dynamodb, hattr, AttributeValue.as_s]

/-- Witness for C2 at a concrete stored record. -/
theorem hit_responds_with_stored_value_no_generation_witness :
    function_handler "Paris, 3 days"
        (.ok ⟨some [("input", .S "Paris, 3 days"), ("output", .S "cached answer")]⟩)
        (.ok ()) (.ok ⟨[]⟩) (.ok ()) =
      ⟨[], [], .ok ⟨200, "cached answer"⟩⟩ :=
  hit_responds_with_stored_value_no_generation "Paris, 3 days" "cached answer"
    [("input", .S "Paris, 3 days"), ("output", .S "cached answer")]
    (.ok ()) (.ok ⟨[]⟩) (.ok ()) rfl

/-- Claim C3: for every request where the store lookup fails with a store
error, the handler responds 500 with a body embedding the store error's
description, sends no prompt to the generator, and attempts no write. -/
theorem lookup_error_responds_500_no_generation
    (body : String) (e : DynamoError)
    (buildResult : Except String Unit)
    (serviceResult : Except String CompletionResponse)
    (putResult : Except String Unit) :
    function_handler body (.error e) buildResult serviceResult putResult =
      ⟨[], [], .ok ⟨500, "Error querying DynamoDB: " ++ e.msg⟩⟩ := by
  simp [function_handler, query_dynamodb]

/-- Claim C4: for every miss where generation fails with a service error,
the handler attempts the write-back with the fallback string as value no
matter how the write turns out, and when the write succeeds it responds
200 with body exactly "Error generating response.". -/
theorem generation_failure_responds_200_fallback_and_writes
    (body : String) (g : Except DynamoError GetItemOutput) (e : String)
    (putResult : Except String Unit)
    (hmiss : query_dynamodb g = .ok none) :
    (function_handler body g (.ok ()) (.error e) putResult).puts =
      [(body, "Error generating response.")] ∧
    function_handler body g (.ok ()) (.error e) (.ok ()) =
      ⟨[system_instruction ++ body], [(body, "Error generating response.")],
        .ok ⟨200, "Error generating response."⟩⟩ := by
  constructor
  · cases putResult <;>
      simp [function_handler, hmiss, generate_response, transform_result]
  · simp [function_handler, hmiss, generate_response, transform_result,
      openai_prompt]

/-- Witness for C4 at a concrete miss with a failed service call and a
failing write. -/
theorem generation_failure_responds_200_fallback_and_writes_witness :
    (function_handler "Paris, 3 days" (.ok ⟨none⟩) (.ok ())
        (.error "quota exceeded") (.error "write refused")).puts =
      [("Paris, 3 days", "Error generating response.")] ∧
    function_handler "Paris, 3 days" (.ok ⟨none⟩) (.ok ())
        (.error "quota exceeded") (.ok ()) =
      ⟨[system_instruction ++ "Paris, 3 days"],
        [("Paris, 3 days", "Error generating response.")],
        .ok ⟨200, "Error generating response."⟩⟩ :=
  generation_failure_responds_200_fallback_and_writes "Paris, 3 days"
    (.ok ⟨none⟩) "quota exceeded" (.error "write refused") rfl

/-- Claim C5, counterexample: when the service returns zero completions,
`generate_response` does not fail with a returned generation error — the
unguarded `choices[0]` index panics instead. -/
theorem zero_completions_panics_counterexample :
    (generate_response "Paris, 3 days" (.ok ()) (.ok ⟨[]⟩)).outcome =
      .panicked ∧
    ¬ ∃ e, (generate_response "Paris, 3 days" (.ok ()) (.ok ⟨[]⟩)).outcome =
      .value (.error e) := by
  constructor
  · rfl
  · rintro ⟨e, h⟩
    simp [generate_response] at h

/-- Claim C5 as amended: on zero completions `generate_response` panics
through the unguarded index (it does not return a generation error), and
on at least one completion it returns the first completion's text
content. -/
theorem zero_completions_panic_first_choice_on_success
    (input : String) (resp : CompletionResponse) :
    (resp.choices = [] →
      generate_response input (.ok ()) (.ok resp) =
        ⟨[openai_prompt input], .panicked⟩) ∧
    (∀ c rest, resp.choices = c :: rest →
      generate_response input (.ok ()) (.ok resp) =
        ⟨[openai_prompt input], .value (.ok c.text)⟩) := by
  constructor
  · intro h
    simp [generate_response, h]
  · intro c rest h
    simp [generate_response, h]

/-- Witness for the amended C5: the empty-choices case and a one-choice
case at concrete inputs. -/
theorem zero_completions_panic_first_choice_on_success_witness :
    generate_response "Paris, 3 days" (.ok ()) (.ok ⟨[]⟩) =
      ⟨[openai_prompt "Paris, 3 days"], .panicked⟩ ∧
    generate_response "Paris, 3 days" (.ok ()) (.ok ⟨[⟨"DAY 1"⟩]⟩) =
      ⟨[openai_prompt "Paris, 3 days"], .value (.ok "DAY 1")⟩ :=
  ⟨(zero_completions_panic_first_choice_on_success "Paris, 3 days" ⟨[]⟩).1 rfl,
    (zero_completions_panic_first_choice_on_success "Paris, 3 days"
      ⟨[⟨"DAY 1"⟩]⟩).2 ⟨"DAY 1"⟩ [] rfl⟩

/-- Claim C6, counterexample: a found record whose `output` attribute is
not a string makes the lookup return the synthetic sentinel string, not
an empty result. -/
theorem mistyped_attribute_returns_sentinel_counterexample :
    query_dynamodb
        (.ok ⟨some [("input", .S "Paris, 3 days"), ("output", .N "42")]⟩) =
      .ok (some "Item attribute does not exist") ∧
    query_dynamodb
        (.ok ⟨some [("input", .S "Paris, 3 days"), ("output", .N "42")]⟩) ≠
      .ok none := by
  exact ⟨rfl, by decide⟩

/-- Claim C6 as amended: a found record with a missing `output` attribute
yields an empty result, but a mis-typed `output` attribute yields the
sentinel string "Item attribute does not exist" as if it were a hit; only
the earlier variant turns the mis-typed case into an empty result. -/
theorem missing_attribute_miss_mistyped_attribute_sentinel
    (item : List (String × AttributeValue)) :
    (item.lookup "output" = none →
      query_dynamodb (.ok ⟨some item⟩) = .ok none) ∧
    (∀ a, item.lookup "output" = some a → a.as_s = .error a →
      query_dynamodb (.ok ⟨some item⟩) =
        .ok (some "Item attribute does not exist")) ∧
    (∀ a, item.lookup "output" = some a → a.as_s = .error a →
      query_dynamodb_v0 (.ok ⟨some item⟩) = .ok none) := by
  refine ⟨fun h => ?_, fun a h1 h2 => ?_, fun a h1 h2 => ?_⟩
  · simp [query_dynamodb, h]
  · simp [query_dynamodb, h1, h2]
  · simp [query_dynamodb_v0, h1, h2]

/-- Witness for the amended C6: a record with no `output` attribute and a
record with a numeric `output` attribute, against both variants. -/
theorem missing_attribute_miss_mistyped_attribute_sentinel_witness :
    query_dynamodb (.ok ⟨some [("input", .S "k")]⟩) = .ok none ∧
    query_dynamodb (.ok ⟨some [("output", .N "42")]⟩) =
      .ok (some "Item attribute does not exist") ∧
    query_dynamodb_v0 (.ok ⟨some [("output", .N "42")]⟩) = .ok none :=
  ⟨(missing_attribute_miss_mistyped_attribute_sentinel [("input", .S "k")]).1 rfl,
    (missing_attribute_miss_mistyped_attribute_sentinel
      [("output", .N "42")]).2.1 (.N "42") rfl rfl,
    (missing_attribute_miss_mistyped_attribute_sentinel
      [("output", .N "42")]).2.2 (.N "42") rfl rfl⟩

/-- Claim C7: for every miss where the generator returned (did not
panic) and the write-back fails, the handler's result is the propagated
write error — an abort surfaced to the runtime — and not any structured
response. -/
theorem write_failure_propagates_error
    (body : String) (g : Except DynamoError GetItemOutput)
    (buildResult : Except String Unit)
    (serviceResult : Except String CompletionResponse)
    (e : String) (r : Except String String)
    (hmiss : query_dynamodb g = .ok none)
    (hval : (generate_response body buildResult serviceResult).outcome =
      .value r) :
    (function_handler body g buildResult serviceResult (.error e)).result =
      .err e ∧
    ∀ resp : Response,
      (function_handler body g buildResult serviceResult (.error e)).result ≠
        .ok resp := by
  have h : (function_handler body g buildResult serviceResult
      (.error e)).result = .err e := by
    simp [function_handler, hmiss, hval]
  exact ⟨h, fun resp hc => by rw [h] at hc; exact HandlerResult.noConfusion hc⟩

/-- Witness for C7 at a concrete miss with a successful generation and a
failed write. -/
theorem write_failure_propagates_error_witness :
    (function_handler "Paris, 3 days" (.ok ⟨none⟩) (.ok ())
        (.ok ⟨[⟨"DAY 1"⟩]⟩) (.error "write refused")).result =
      .err "write refused" ∧
    ∀ resp : Response,
      (function_handler "Paris, 3 days" (.ok ⟨none⟩) (.ok ())
          (.ok ⟨[⟨"DAY 1"⟩]⟩) (.error "write refused")).result ≠
        .ok resp :=
  write_failure_propagates_error "Paris, 3 days" (.ok ⟨none⟩) (.ok ())
    (.ok ⟨[⟨"DAY 1"⟩]⟩) "write refused" (.ok "DAY 1") rfl rfl

/-- Claim C8, counterexample: when generation succeeds and the write-back
fails, the generated text is not returned — the handler aborts with the
write error instead of responding 200 with the text. -/
theorem write_failure_drops_generated_text_counterexample :
    (function_handler "Paris, 3 days" (.ok ⟨none⟩) (.ok ())
        (.ok ⟨[⟨"DAY 1"⟩]⟩) (.error "write refused")).result ≠
      .ok ⟨200, "DAY 1"⟩ ∧
    (function_handler "Paris, 3 days" (.ok ⟨none⟩) (.ok ())
        (.ok ⟨[⟨"DAY 1"⟩]⟩) (.error "write refused")).result =
      .err "write refused" := by
  constructor
  · intro h
    simp [function_handler, query_dynamodb, generate_response,
      transform_result] at h
  · rfl

/-- Claim C8 as amended: for every miss where generation succeeds and the
write-back fails, the handler aborts with the propagated write error; the
generated text is neither persisted nor returned to the caller. -/
theorem write_failure_aborts_without_returning_text
    (body : String) (g : Except DynamoError GetItemOutput) (e : String)
    (resp : CompletionResponse) (c : Choice) (rest : List Choice)
    (hmiss : query_dynamodb g = .ok none)
    (hchoices : resp.choices = c :: rest) :
    function_handler body g (.ok ()) (.ok resp) (.error e) =
      ⟨[openai_prompt body], [(body, c.text)], .err e⟩ := by
  simp [function_handler, hmiss, generate_response, hchoices, transform_result]

/-- Witness for the amended C8 at a concrete miss. -/
theorem write_failure_aborts_without_returning_text_witness :
    function_handler "Paris, 3 days" (.ok ⟨none⟩) (.ok ())
        (.ok ⟨[⟨"DAY 1"⟩]⟩) (.error "write refused") =
      ⟨[openai_prompt "Paris, 3 days"], [("Paris, 3 days", "DAY 1")],
        .err "write refused"⟩ :=
  write_failure_aborts_without_returning_text "Paris, 3 days" (.ok ⟨none⟩)
    "write refused" ⟨[⟨"DAY 1"⟩]⟩ ⟨"DAY 1"⟩ [] rfl rfl

/-- Claim C9: after a first invocation on a missing key generated a value
and wrote it back successfully, a second invocation with the identical
body hits the cache and returns that same value, with no prompt sent to
the generator and no further write — so the store is unchanged and every
later identical invocation behaves the same. -/
theorem repeated_request_hits_cache_idempotent
    (store : Store) (body : String) (resp : CompletionResponse)
    (c : Choice) (rest : List Choice)
    (buildResult2 : Except String Unit)
    (serviceResult2 : Except String CompletionResponse)
    (putResult2 : Except String Unit)
    (hmiss : store.lookup body = none)
    (hchoices : resp.choices = c :: rest) :
    let o1 := function_handler body (get_item store body) (.ok ()) (.ok resp)
      (.ok ())
    let store2 := apply_puts store o1.puts
    let o2 := function_handler body (get_item store2 body) buildResult2
      serviceResult2 putResult2
    o1.result = .ok ⟨200, c.text⟩ ∧
    o2 = ⟨[], [], .ok ⟨200, c.text⟩⟩ ∧
    apply_puts store2 o2.puts = store2 := by
  have hget1 : query_dynamodb (get_item store body) = .ok none := by
    simp [get_item, query_dynamodb, hmiss]
  have h1 : function_handler body (get_item store body) (.ok ()) (.ok resp)
      (.ok ()) =
      ⟨[system_instruction ++ body], [(body, c.text)], .ok ⟨200, c.text⟩⟩ := by
    simp [function_handler, hget1, generate_response, hchoices,
      transform_result, openai_prompt]
  have hget2 : query_dynamodb (get_item (put_item store body c.text) body) =
      .ok (some c.text) := by
    simp [get_item, put_item, query_dynamodb, List.lookup,
      AttributeValue.as_s]
  have h2 : function_handler body
      (get_item (put_item store body c.text) body) buildResult2
      serviceResult2 putResult2 = ⟨[], [], .ok ⟨200, c.text⟩⟩ := by
    simp [function_handler, hget2]
  simp only [put_item] at h2
  simp [h1, apply_puts, put_item, h2]

/-- Witness for C9: the empty store, one generated completion, and a
second invocation whose generator would have produced a different text;
the cached first text is returned and the store is unchanged. -/
theorem repeated_request_hits_cache_idempotent_witness :
    (let o1 := function_handler "Paris, 3 days"
        (get_item [] "Paris, 3 days") (.ok ()) (.ok ⟨[⟨"DAY 1"⟩]⟩) (.ok ());
     let store2 := apply_puts [] o1.puts;
     let o2 := function_handler "Paris, 3 days"
        (get_item store2 "Paris, 3 days") (.ok ()) (.ok ⟨[⟨"OTHER"⟩]⟩) (.ok ());
     o1.result = .ok ⟨200, "DAY 1"⟩ ∧
     o2 = ⟨[], [], .ok ⟨200, "DAY 1"⟩⟩ ∧
     apply_puts store2 o2.puts = store2) :=
  repeated_request_hits_cache_idempotent [] "Paris, 3 days" ⟨[⟨"DAY 1"⟩]⟩
    ⟨"DAY 1"⟩ [] (.ok ()) (.ok ⟨[⟨"OTHER"⟩]⟩) (.ok ()) rfl rfl

/-- Claim C10: for every miss where the generator returned (did not
panic) and the write-back succeeds, the value written under the body key
is exactly the string returned as the response body — the transformed
generation result, including the fallback "Error generating response."
when generation failed. -/
theorem written_value_equals_response_body
    (body : String) (g : Except DynamoError GetItemOutput)
    (buildResult : Except String Unit)
    (serviceResult : Except String CompletionResponse)
    (r : Except String String)
    (hmiss : query_dynamodb g = .ok none)
    (hval : (generate_response body buildResult serviceResult).outcome =
      .value r) :
    function_handler body g buildResult serviceResult (.ok ()) =
      ⟨(generate_response body buildResult serviceResult).serviceCalls,
        [(body, transform_result r)], .ok ⟨200, transform_result r⟩⟩ := by
  simp [function_handler, hmiss, hval]

/-- Witness for C10 at a concrete miss where generation fails, so the
fallback string is both stored and returned. -/
theorem written_value_equals_response_body_witness :
    function_handler "Paris, 3 days" (.ok ⟨none⟩) (.ok ())
        (.error "quota exceeded") (.ok ()) =
      ⟨(generate_response "Paris, 3 days" (.ok ())
          (.error "quota exceeded")).serviceCalls,
        [("Paris, 3 days", transform_result (.error "quota exceeded"))],
        .ok ⟨200, transform_result (.error "quota exceeded")⟩⟩ :=
  written_value_equals_response_body "Paris, 3 days" (.ok ⟨none⟩) (.ok ())
    (.error "quota exceeded") (.error "quota exceeded") rfl rfl

end WonderNAV
